import Mathlib

/-!
Shallow embedding of `scripts/run_train.py` (the training launcher of the
`vla-launchables` repository) and proofs about its orchestration contract.

The script is sequential glue: it loads a YAML run configuration, installs
policy-specific extras, builds and runs a training command, and (on success)
optionally uploads the output to the Hugging Face Hub and deletes the cloud
instance.  The embedding models:
  - the run configuration as a structure of optional fields (absent key = `none`);
  - the external world (filesystem, torch availability, subprocess exit codes,
    environment variables, interactive input) as an explicit `Env` record;
  - the observable behaviour of `main` as a `RunResult` record (final exit
    code, spawned install commands, the built training command, the output
    directory used, and whether upload / instance deletion were attempted).
Every definition cites the lines of `run_train.py` it embeds.
-/

namespace RunTrain

/-! ### Python string primitives used by the script -/

/-- Python `str.startswith(pre)` (used at line 329 for the `"local/"` check). -/
def pyStartsWith (s pre : String) : Bool :=
  pre.data.isPrefixOf s.data

/-- Python `job_name.replace("_", "-")` (line 334).  The pattern is a single
character, so per-character replacement is exact. -/
def pyReplaceUnderscore (s : String) : String :=
  ⟨s.data.map (fun ch => if ch = '_' then '-' else ch)⟩

/-- Python `str.lower()` (line 334); ASCII lowercasing. -/
def pyLower (s : String) : String :=
  ⟨s.data.map Char.toLower⟩

/-- POSIX `os.path.join(a, b)` (lines 287 and 289): if `b` is absolute it wins;
otherwise it is appended to `a`, inserting a `/` separator unless `a` is empty
or already ends in `/`. -/
def pathJoin (a b : String) : String :=
  if b.data.head? = some '/' then b
  else if a = "" ∨ a.data.getLast? = some '/' then a ++ b
  else a ++ "/" ++ b

/-! ### The run configuration (spec section 3; keys read by `run_train.py`) -/

/-- The `dataset` section of the YAML config (line 87). -/
structure DatasetConfig where
  repo_id : Option String := none
deriving DecidableEq

/-- The `policy` section of the YAML config (lines 90, 105, 124-141, 264, 328). -/
structure PolicyConfig where
  type : Option String := none
  repo_id : Option String := none
  pretrained_path : Option String := none
  push_to_hub : Option Bool := none
  compile_model : Option Bool := none
  gradient_checkpointing : Option Bool := none
deriving DecidableEq

/-- The `wandb` section of the YAML config (line 118). -/
structure WandbConfig where
  enable : Option Bool := none
deriving DecidableEq

/-- The `upload` section of the YAML config (lines 323-337).  The YAML key
`private` is a Lean keyword, so the field is named `priv`. -/
structure UploadConfig where
  enable : Option Bool := none
  repo_id : Option String := none
  priv : Option Bool := none
deriving DecidableEq

/-- The `auto_delete` section of the YAML config (lines 346-347). -/
structure AutoDeleteConfig where
  enable : Option Bool := none
deriving DecidableEq

/-- The run configuration: one field per YAML key the script reads.  `none`
models an absent key; a structure-valued `none` models an absent section
(Python `config.get(section, {})`). -/
structure Config where
  dataset : Option DatasetConfig := none
  policy : Option PolicyConfig := none
  output_dir : Option String := none
  job_name : Option String := none
  steps : Option Nat := none
  batch_size : Option Nat := none
  dtype : Option String := none
  device : Option String := none
  wandb : Option WandbConfig := none
  upload : Option UploadConfig := none
  auto_delete : Option AutoDeleteConfig := none
  resume : Option Bool := none
deriving DecidableEq

/-- `config.get("policy", {}).get("type")` (lines 105, 264). -/
def policy_type_val (c : Config) : Option String :=
  (c.policy.getD {}).type

/-- Python truthiness of `policy_type` (line 265, `if not policy_type`):
present and non-empty. -/
def policy_type_truthy (c : Config) : Bool :=
  match policy_type_val c with
  | some t => !(t == "")
  | none => false

/-- `config.get("policy", {}).get("type", "")` (line 105). -/
def policy_type_str (c : Config) : String :=
  (policy_type_val c).getD ""

/-! ### Extras installer (lines 16-60) -/

/-- The `install_commands` lookup table (lines 37-43): policy-type string to
install command, with `none` for "no extras needed" (`act`). -/
def install_commands : List (String × Option (List String)) :=
  [("xvla", some ["pip", "install", "-e", "/opt/lerobot[xvla]"]),
   ("smolvla", some ["pip", "install", "-e", "/opt/lerobot[smolvla]"]),
   ("pi", some ["pip", "install", "-e", "/opt/lerobot[pi]"]),
   ("pi05", some ["pip", "install", "-e", "/opt/lerobot[pi]"]),
   ("act", none)]

/-- `install_policy_extras` (lines 16-60), modelled by its spawned
package-install subprocesses.  The `groot` branch (lines 26-35) only imports
`flash_attn` and spawns nothing; unknown policy types (lines 45-48) warn and
skip; `act` (lines 50-53) maps to `None` and spawns nothing; otherwise the
looked-up pip command is run (line 56), with failures logged and swallowed
(lines 57-58). -/
def install_policy_extras (policy_type : String) : List (List String) :=
  if policy_type = "groot" then []
  else
    match install_commands.lookup policy_type with
    | none => []
    | some none => []
    | some (some cmd) => [cmd]

/-! ### dtype auto-detection (lines 63-71) -/

/-- The accelerator facts `get_dtype` consults: whether `import torch`
succeeds, `torch.cuda.is_available()`, and `torch.cuda.is_bf16_supported()`
(the `getattr` fallback returning `False` is folded into the last flag). -/
structure TorchEnv where
  torch_available : Bool
  cuda_available : Bool
  bf16_supported : Bool
deriving DecidableEq

/-- `get_dtype` (lines 63-71): `bfloat16` when CUDA is available and bf16 is
supported, else `float16`; `float16` when torch cannot be imported. -/
def get_dtype (env : TorchEnv) : String :=
  if env.torch_available then
    if env.cuda_available && env.bf16_supported then "bfloat16" else "float16"
  else "float16"

/-! ### Command builder (lines 81-147), one definition per `cmd.extend` block -/

/-- Line 84: the fixed command head. -/
def cmd_head : List String :=
  ["python3", "-m", "lerobot.scripts.lerobot_train"]

/-- Lines 87-88: `--dataset.repo_id`, only when both keys are present. -/
def dataset_args (c : Config) : List String :=
  match (c.dataset.getD {}).repo_id with
  | some r => ["--dataset.repo_id", r]
  | none => []

/-- Lines 90-91: `--policy.type`, only when both keys are present. -/
def policy_type_args (c : Config) : List String :=
  match (c.policy.getD {}).type with
  | some t => ["--policy.type", t]
  | none => []

/-- Lines 93-94: `--output_dir`, only when the key is present. -/
def output_dir_args (c : Config) : List String :=
  match c.output_dir with
  | some d => ["--output_dir", d]
  | none => []

/-- Lines 96-97: `--job_name`, only when the key is present. -/
def job_name_args (c : Config) : List String :=
  match c.job_name with
  | some j => ["--job_name", j]
  | none => []

/-- Line 100: `--steps` with default `3000` (`str(...)` is `Nat.repr`). -/
def steps_args (c : Config) : List String :=
  ["--steps", Nat.repr (c.steps.getD 3000)]

/-- Line 101: `--batch_size` with default `8`. -/
def batch_size_args (c : Config) : List String :=
  ["--batch_size", Nat.repr (c.batch_size.getD 8)]

/-- Lines 103-110: `--policy.dtype`, omitted when the policy type is in
`["groot"]`; the value defaults to `"auto"` and `"auto"` is resolved by
`get_dtype`. -/
def dtype_args (env : TorchEnv) (c : Config) : List String :=
  if policy_type_str c ∈ ["groot"] then []
  else
    ["--policy.dtype",
     (if c.dtype.getD "auto" = "auto" then get_dtype env else c.dtype.getD "auto")]

/-- Lines 113-115: `--policy.device` with default `"cuda"`, skipped when the
value is falsy (empty string). -/
def device_args (c : Config) : List String :=
  if c.device.getD "cuda" = "" then []
  else ["--policy.device", c.device.getD "cuda"]

/-- Lines 118-121: `--wandb.enable=...`, with `config.get("wandb", {})
.get("enable", True)`. -/
def wandb_args (c : Config) : List String :=
  if (c.wandb.getD {}).enable.getD true then ["--wandb.enable=true"]
  else ["--wandb.enable=false"]

/-- Lines 128-129: `--policy.repo_id`, only when the key is present. -/
def policy_repo_id_args (p : PolicyConfig) : List String :=
  match p.repo_id with
  | some r => ["--policy.repo_id", r]
  | none => []

/-- Lines 131-132: `--policy.push_to_hub=true` when truthy. -/
def push_to_hub_args (p : PolicyConfig) : List String :=
  if p.push_to_hub.getD false then ["--policy.push_to_hub=true"] else []

/-- Lines 134-135: `--policy.pretrained_path`, only when the key is present. -/
def pretrained_path_args (p : PolicyConfig) : List String :=
  match p.pretrained_path with
  | some pp => ["--policy.pretrained_path", pp]
  | none => []

/-- Lines 137-138: `--policy.compile_model=true` when truthy. -/
def compile_model_args (p : PolicyConfig) : List String :=
  if p.compile_model.getD false then ["--policy.compile_model=true"] else []

/-- Lines 140-141: `--policy.gradient_checkpointing=true` when truthy. -/
def gradient_checkpointing_args (p : PolicyConfig) : List String :=
  if p.gradient_checkpointing.getD false then ["--policy.gradient_checkpointing=true"] else []

/-- Lines 124-141: the policy-specific arguments, emitted only when the
`policy` section is present. -/
def policy_extra_args (c : Config) : List String :=
  match c.policy with
  | none => []
  | some p =>
    policy_repo_id_args p ++ push_to_hub_args p ++ pretrained_path_args p ++
    compile_model_args p ++ gradient_checkpointing_args p

/-- Lines 144-145: `--resume=true` when `resume` is truthy. -/
def resume_args (c : Config) : List String :=
  if c.resume.getD false then ["--resume=true"] else []

/-- `build_train_command` (lines 81-147): the segments in source order. -/
def build_train_command (env : TorchEnv) (c : Config) : List String :=
  cmd_head ++ dataset_args c ++ policy_type_args c ++ output_dir_args c ++
  job_name_args c ++ steps_args c ++ batch_size_args c ++ dtype_args env c ++
  device_args c ++ wandb_args c ++ policy_extra_args c ++ resume_args c

/-! ### Output-directory uniquification (lines 272-299) -/

/-- The candidate path tried at loop counter `n` (lines 285-292): for
`n = 0` the path `base/job_timestamp`, otherwise `base/job_timestamp_n`. -/
def candidate (base job ts : String) (n : Nat) : String :=
  if n = 0 then pathJoin base (job ++ "_" ++ ts)
  else pathJoin base (job ++ "_" ++ ts ++ "_" ++ Nat.repr n)

/-- The `while True` loop of lines 285-295, fuelled: starting at counter `k`,
return the first candidate that does not exist in the filesystem `fs`.
(The Python loop is unbounded; the fuel only bounds this model, and
`unique_output_dir_spec` below shows `fs.length + 1` steps always suffice.) -/
def find_unique (fs : List String) (base job ts : String) : Nat → Nat → Option String
  | 0, _ => none
  | fuel + 1, k =>
    if candidate base job ts k ∈ fs then find_unique fs base job ts fuel (k + 1)
    else some (candidate base job ts k)

/-- The result of the uniquification loop (lines 278-299): the first
non-existing candidate path.  The `getD` fallback is never reached
(`unique_output_dir_eq_find` below). -/
def unique_output_dir (fs : List String) (base job ts : String) : String :=
  (find_unique fs base job ts (fs.length + 1) 0).getD (candidate base job ts 0)

/-- Lines 272-299, value of the local variable `output_dir` after the
uniquification step: `config.get("output_dir", "/workspace/outputs")`,
replaced by a fresh candidate when it exists and `resume` is falsy. -/
def effective_output_dir (fs : List String) (ts : String) (c : Config) : String :=
  if c.output_dir.getD "/workspace/outputs" ∈ fs ∧ c.resume.getD false = false then
    unique_output_dir fs (c.output_dir.getD "/workspace/outputs")
      (c.job_name.getD "untitled") ts
  else c.output_dir.getD "/workspace/outputs"

/-- Line 299, `config["output_dir"] = output_dir`: the configuration actually
passed to `build_train_command`, with `output_dir` rewritten on collision. -/
def updated_config (fs : List String) (ts : String) (c : Config) : Config :=
  if c.output_dir.getD "/workspace/outputs" ∈ fs ∧ c.resume.getD false = false then
    { c with output_dir := some (unique_output_dir fs
        (c.output_dir.getD "/workspace/outputs") (c.job_name.getD "untitled") ts) }
  else c

/-! ### Hub upload repo-id resolution (lines 322-337) -/

/-- Line 334: `job_name.replace("_", "-").lower()` applied to
`config.get("job_name", "untitled")` (line 332). -/
def sanitized_job_name (c : Config) : String :=
  pyLower (pyReplaceUnderscore (c.job_name.getD "untitled"))

/-- Lines 328-334: the fallback when `upload.repo_id` is falsy — the policy
repo id if truthy and not a `local/` placeholder, else the sanitized job
name. -/
def resolve_fallback_repo_id (c : Config) : String :=
  match (c.policy.getD {}).repo_id with
  | some pr =>
    if pr ≠ "" ∧ pyStartsWith pr "local/" = false then pr
    else sanitized_job_name c
  | none => sanitized_job_name c

/-- Lines 325-334: the upload target repository id: the explicit
`upload.repo_id` when truthy (line 326, `if not repo_id`), else the
fallback. -/
def resolve_upload_repo_id (c : Config) : String :=
  match (c.upload.getD {}).repo_id with
  | some r => if r = "" then resolve_fallback_repo_id c else r
  | none => resolve_fallback_repo_id c

/-! ### The environment `main` runs in, and its observable result -/

/-- The external world of one launcher run: the accelerator facts, the set of
existing filesystem paths, the timestamp taken at line 283, the exit code the
training subprocess would return (line 311), whether `upload_to_hub` would
succeed (line 338; its failure is only logged), and the Brev credentials from
environment variables (lines 348-349) and from interactive prompts
(lines 353, 359; already stripped). -/
structure Env where
  torch : TorchEnv
  fs : List String
  timestamp : String
  trainExit : Int
  uploadResult : Bool
  brevEnvId : Option String
  brevToken : Option String
  inputEnvId : String
  inputToken : String
deriving DecidableEq

/-- The observable outcome of `main`: the process exit code, the spawned
package-install commands, the training command (if training was reached),
the `output_dir` value used for upload, and which post-training steps were
reached: `upload_attempted` (= `upload_to_hub` called, line 338, with
`upload_repo_id` its target), `delete_step` (= the `auto_delete` branch
entered, line 347), `delete_attempted` (= `delete_brev_instance` called,
line 370). -/
structure RunResult where
  exit_code : Int
  install_cmds : List (List String)
  train_cmd : Option (List String)
  final_output_dir : String
  upload_attempted : Bool
  upload_repo_id : Option String
  delete_step : Bool
  delete_attempted : Bool
deriving DecidableEq

/-- Lines 265-267: `sys.exit(1)` when `policy.type` is falsy, before any
install or training subprocess is spawned. -/
def early_exit : RunResult :=
  { exit_code := 1, install_cmds := [], train_cmd := none, final_output_dir := "",
    upload_attempted := false, upload_repo_id := none, delete_step := false,
    delete_attempted := false }

/-- Lines 352-361: the effective Brev credential — the environment variable
when truthy, else the interactively prompted value. -/
def pyEnvVal (envVar : Option String) (prompted : String) : String :=
  match envVar with
  | some s => if s = "" then prompted else s
  | none => prompted

/-- `main` after the `policy.type` check (lines 269-374): install extras,
uniquify the output directory, build the training command, run it; a non-zero
training exit is propagated (lines 314-316) before upload or deletion; on a
zero exit the upload step runs when `upload.enable` defaults true (line 324),
the auto-delete branch when `auto_delete.enable` defaults false (line 347),
and `delete_brev_instance` only if both credentials are truthy
(lines 363-370); the final exit is `sys.exit(0)` (line 374). -/
def main_body (env : Env) (c : Config) : RunResult :=
  let installs := install_policy_extras (policy_type_str c)
  let outd := effective_output_dir env.fs env.timestamp c
  let c1 := updated_config env.fs env.timestamp c
  let cmd := build_train_command env.torch c1
  if env.trainExit ≠ 0 then
    { exit_code := env.trainExit, install_cmds := installs, train_cmd := some cmd,
      final_output_dir := outd, upload_attempted := false, upload_repo_id := none,
      delete_step := false, delete_attempted := false }
  else
    let upEnabled := (c1.upload.getD {}).enable.getD true
    let delStep := (c1.auto_delete.getD {}).enable.getD false
    let envId := pyEnvVal env.brevEnvId env.inputEnvId
    let token := pyEnvVal env.brevToken env.inputToken
    { exit_code := 0, install_cmds := installs, train_cmd := some cmd,
      final_output_dir := outd, upload_attempted := upEnabled,
      upload_repo_id := if upEnabled then some (resolve_upload_repo_id c1) else none,
      delete_step := delStep,
      delete_attempted :=
        if delStep then
          if envId = "" then false else if token = "" then false else true
        else false }

/-- `main` (lines 251-374): exit 1 on a falsy `policy.type` (lines 264-267),
otherwise the pipeline body. -/
def main (env : Env) (c : Config) : RunResult :=
  if policy_type_truthy c then main_body env c else early_exit

/-! ### Decimal rendering: `Nat.repr` is injective.

The loop of lines 285-295 terminates because the counter suffixes
`str(counter)` are pairwise distinct; we prove this by relating the core
fuelled renderer `Nat.toDigitsCore` to Mathlib's `Nat.digits`. -/

lemma toDigitsCore_eq_digits (fuel : Nat) : ∀ (n : Nat) (ds : List Char), 0 < n → n ≤ fuel →
    Nat.toDigitsCore 10 fuel n ds = ((Nat.digits 10 n).map Nat.digitChar).reverse ++ ds := by
  induction fuel with
  | zero => intro n ds h1 h2; omega
  | succ f ih =>
    intro n ds h1 h2
    simp only [Nat.toDigitsCore]
    by_cases h : n / 10 = 0
    · have hn10 : n < 10 := by omega
      rw [if_pos h, Nat.digits_def' (by norm_num) h1, h]
      simp [Nat.mod_eq_of_lt hn10]
    · rw [if_neg h]
      have h1' : 0 < n / 10 := Nat.pos_of_ne_zero h
      have h2' : n / 10 ≤ f := by
        have := Nat.div_lt_self h1 (by norm_num : 1 < 10)
        omega
      rw [ih (n / 10) _ h1' h2', Nat.digits_def' (by norm_num) h1]
      simp

lemma repr_eq_digits (n : Nat) (h : 0 < n) :
    Nat.repr n = (((Nat.digits 10 n).map Nat.digitChar).reverse).asString := by
  unfold Nat.repr Nat.toDigits
  rw [toDigitsCore_eq_digits (n + 1) n [] h (by omega)]
  simp [List.asString]

lemma digitChar_inj_lt : ∀ x < 10, ∀ y < 10, Nat.digitChar x = Nat.digitChar y → x = y := by
  decide

lemma asString_inj {l1 l2 : List Char} (h : l1.asString = l2.asString) : l1 = l2 := by
  simpa [List.asString] using congrArg String.data h

lemma map_digitChar_inj : ∀ (l1 l2 : List Nat), (∀ x ∈ l1, x < 10) → (∀ x ∈ l2, x < 10) →
    l1.map Nat.digitChar = l2.map Nat.digitChar → l1 = l2 := by
  intro l1
  induction l1 with
  | nil => intro l2 _ _ h; cases l2 <;> simp_all
  | cons a l ih =>
    intro l2 h1 h2 h
    cases l2 with
    | nil => simp_all
    | cons b m =>
      simp only [List.map_cons, List.cons.injEq] at h
      have ha : a = b := digitChar_inj_lt a (h1 a (by simp)) b (h2 b (by simp)) h.1
      have : l = m := ih m (fun x hx => h1 x (by simp [hx])) (fun x hx => h2 x (by simp [hx])) h.2
      simp [ha, this]

lemma repr_pos_ne_zero_repr {b : Nat} (hb : 0 < b) : Nat.repr b ≠ Nat.repr 0 := by
  intro h
  rw [repr_eq_digits b hb] at h
  have h0 : Nat.repr 0 = List.asString ['0'] := rfl
  rw [h0] at h
  have hdata := asString_inj h
  have hrev : (Nat.digits 10 b).map Nat.digitChar = ['0'] := by
    have := congrArg List.reverse hdata
    simpa using this
  rcases hd : Nat.digits 10 b with _ | ⟨x, xs⟩
  · rw [hd] at hrev; simp at hrev
  · rw [hd] at hrev
    simp only [List.map_cons, List.cons.injEq] at hrev
    have hx : x < 10 := Nat.digits_lt_base (by norm_num) (by rw [hd]; simp)
    have hx0 : x = 0 := digitChar_inj_lt x hx 0 (by norm_num) (by simpa using hrev.1)
    have hxs : xs = [] := List.map_eq_nil_iff.mp hrev.2
    have hb' : b = Nat.ofDigits 10 (Nat.digits 10 b) := (Nat.ofDigits_digits 10 b).symm
    rw [hd, hx0, hxs] at hb'
    simp [Nat.ofDigits] at hb'
    omega

/-- `Nat.repr` (Python `str` on the loop counter) is injective. -/
lemma repr_inj {a b : Nat} (h : Nat.repr a = Nat.repr b) : a = b := by
  rcases Nat.eq_zero_or_pos a with ha | ha <;> rcases Nat.eq_zero_or_pos b with hb | hb
  · omega
  · subst ha; exact absurd h.symm (repr_pos_ne_zero_repr hb)
  · subst hb; exact absurd h (repr_pos_ne_zero_repr ha)
  · rw [repr_eq_digits a ha, repr_eq_digits b hb] at h
    have hdata := asString_inj h
    have hrev := List.reverse_injective hdata
    have hdig := map_digitChar_inj _ _ (fun x hx => Nat.digits_lt_base (by norm_num) hx)
      (fun x hx => Nat.digits_lt_base (by norm_num) hx) hrev
    exact Nat.digits.injective 10 hdig

/-! ### The uniquification loop produces a fresh, suffixed path -/

lemma data_ne_nil_of_ne_empty {p : String} (hp : p ≠ "") : p.data ≠ [] :=
  fun h => hp (String.ext (by simpa using h))

/-- Appending to the relative part commutes with `pathJoin` as long as the
relative part is non-empty (the join branch depends only on its first
character). -/
lemma pathJoin_append (a p s : String) (hp : p ≠ "") :
    pathJoin a (p ++ s) = pathJoin a p ++ s := by
  have hpd : p.data ≠ [] := data_ne_nil_of_ne_empty hp
  have hhead : (p ++ s).data.head? = p.data.head? := by
    rw [String.data_append, List.head?_append]
    cases hc : p.data with
    | nil => exact absurd hc hpd
    | cons c cs => simp
  unfold pathJoin
  rw [hhead]
  by_cases h1 : p.data.head? = some '/'
  · simp [h1]
  · rw [if_neg h1, if_neg h1]
    by_cases h2 : a = "" ∨ a.data.getLast? = some '/'
    · rw [if_pos h2, if_pos h2]
      exact String.ext (by simp)
    · rw [if_neg h2, if_neg h2]
      exact String.ext (by simp)

/-- The counter suffix appended at loop iteration `n`. -/
def ctr_suffix (n : Nat) : String :=
  if n = 0 then "" else "_" ++ Nat.repr n

lemma stem_ne_empty (job ts : String) : job ++ "_" ++ ts ≠ "" := by
  intro h
  have := congrArg String.data h
  simp at this

lemma candidate_eq_stem_suffix (base job ts : String) (n : Nat) :
    candidate base job ts n = pathJoin base (job ++ "_" ++ ts) ++ ctr_suffix n := by
  unfold candidate ctr_suffix
  by_cases h : n = 0
  · simp [h]
  · rw [if_neg h, if_neg h]
    have hgroup : job ++ "_" ++ ts ++ "_" ++ Nat.repr n =
        (job ++ "_" ++ ts) ++ ("_" ++ Nat.repr n) := String.ext (by simp)
    rw [hgroup, pathJoin_append base (job ++ "_" ++ ts) ("_" ++ Nat.repr n) (stem_ne_empty job ts)]

lemma ctr_suffix_inj {n m : Nat} (h : ctr_suffix n = ctr_suffix m) : n = m := by
  unfold ctr_suffix at h
  by_cases hn : n = 0 <;> by_cases hm : m = 0
  · omega
  · rw [if_pos hn, if_neg hm] at h
    have := congrArg String.data h
    simp at this
  · rw [if_neg hn, if_pos hm] at h
    have := congrArg String.data h
    simp at this
  · rw [if_neg hn, if_neg hm] at h
    have hd := congrArg String.data h
    simp only [String.data_append] at hd
    have := List.append_cancel_left hd
    exact repr_inj (String.ext this)

/-- Distinct loop counters always try distinct candidate paths. -/
lemma candidate_inj (base job ts : String) {n m : Nat}
    (h : candidate base job ts n = candidate base job ts m) : n = m := by
  rw [candidate_eq_stem_suffix, candidate_eq_stem_suffix] at h
  have hd := congrArg String.data h
  simp only [String.data_append] at hd
  exact ctr_suffix_inj (String.ext (List.append_cancel_left hd))

/-- Pigeonhole: among the first `fs.length + 1` candidates one is fresh. -/
lemma exists_fresh_candidate (fs : List String) (base job ts : String) :
    ∃ k, k < fs.length + 1 ∧ candidate base job ts k ∉ fs := by
  by_contra hall
  push_neg at hall
  have hmap : ∀ k ∈ Finset.range (fs.length + 1), candidate base job ts k ∈ fs.toFinset := by
    intro k hk
    rw [List.mem_toFinset]
    exact hall k (Finset.mem_range.mp hk)
  have hcard : fs.toFinset.card < (Finset.range (fs.length + 1)).card := by
    rw [Finset.card_range]
    exact Nat.lt_succ_of_le fs.toFinset_card_le
  obtain ⟨x, hx, y, hy, hxy, heq⟩ := Finset.exists_ne_map_eq_of_card_lt_of_maps_to hcard hmap
  exact hxy (candidate_inj base job ts heq)

lemma find_unique_spec (fs : List String) (base job ts : String) :
    ∀ fuel k, (∃ j, j < fuel ∧ candidate base job ts (k + j) ∉ fs) →
    ∃ c, find_unique fs base job ts fuel k = some c ∧ c ∉ fs ∧
      ∃ n, c = candidate base job ts n := by
  intro fuel
  induction fuel with
  | zero => intro k ⟨j, hj, _⟩; omega
  | succ f ih =>
    intro k ⟨j, hj, hfree⟩
    by_cases hc : candidate base job ts k ∈ fs
    · have hj0 : j ≠ 0 := by
        intro h0
        rw [h0] at hfree
        simp at hfree
        exact hfree hc
      have hshift : k + 1 + (j - 1) = k + j := by omega
      obtain ⟨c, hfind, hcf, n, hn⟩ := ih (k + 1) ⟨j - 1, by omega, by rw [hshift]; exact hfree⟩
      exact ⟨c, by simp only [find_unique, if_pos hc]; exact hfind, hcf, n, hn⟩
    · exact ⟨candidate base job ts k, by simp only [find_unique, if_neg hc], hc, k, rfl⟩

lemma unique_output_dir_spec (fs : List String) (base job ts : String) :
    unique_output_dir fs base job ts ∉ fs ∧
    ∃ n, unique_output_dir fs base job ts = candidate base job ts n := by
  obtain ⟨k, hk, hfree⟩ := exists_fresh_candidate fs base job ts
  obtain ⟨c, hfind, hcf, n, hn⟩ := find_unique_spec fs base job ts (fs.length + 1) 0
    ⟨k, hk, by simpa using hfree⟩
  unfold unique_output_dir
  rw [hfind]
  exact ⟨by simpa using hcf, n, by simpa using hn⟩

/-! ### Projection lemmas for `main` -/

lemma main_run (env : Env) (c : Config) (h : policy_type_truthy c = true) :
    main env c = main_body env c := by
  simp [main, h]

lemma updated_config_upload (fs : List String) (ts : String) (c : Config) :
    (updated_config fs ts c).upload = c.upload := by
  unfold updated_config; split <;> rfl

lemma updated_config_auto_delete (fs : List String) (ts : String) (c : Config) :
    (updated_config fs ts c).auto_delete = c.auto_delete := by
  unfold updated_config; split <;> rfl

lemma updated_config_policy (fs : List String) (ts : String) (c : Config) :
    (updated_config fs ts c).policy = c.policy := by
  unfold updated_config; split <;> rfl

lemma updated_config_job_name (fs : List String) (ts : String) (c : Config) :
    (updated_config fs ts c).job_name = c.job_name := by
  unfold updated_config; split <;> rfl

/-- Rewriting `output_dir` (line 299) does not change the upload target. -/
lemma resolve_updated_config (fs : List String) (ts : String) (c : Config) :
    resolve_upload_repo_id (updated_config fs ts c) = resolve_upload_repo_id c := by
  unfold resolve_upload_repo_id resolve_fallback_repo_id sanitized_job_name
  rw [updated_config_upload, updated_config_policy, updated_config_job_name]

lemma main_body_exit_code (env : Env) (c : Config) :
    (main_body env c).exit_code = env.trainExit := by
  by_cases he : env.trainExit = 0 <;> simp [main_body, he]

lemma main_body_install_cmds (env : Env) (c : Config) :
    (main_body env c).install_cmds = install_policy_extras (policy_type_str c) := by
  by_cases he : env.trainExit = 0 <;> simp [main_body, he]

lemma main_body_train_cmd (env : Env) (c : Config) :
    (main_body env c).train_cmd =
      some (build_train_command env.torch (updated_config env.fs env.timestamp c)) := by
  by_cases he : env.trainExit = 0 <;> simp [main_body, he]

lemma main_body_final_output_dir (env : Env) (c : Config) :
    (main_body env c).final_output_dir = effective_output_dir env.fs env.timestamp c := by
  by_cases he : env.trainExit = 0 <;> simp [main_body, he]

lemma main_body_nonzero_flags (env : Env) (c : Config) (he : env.trainExit ≠ 0) :
    (main_body env c).upload_attempted = false ∧ (main_body env c).upload_repo_id = none ∧
    (main_body env c).delete_step = false ∧ (main_body env c).delete_attempted = false := by
  simp [main_body, he]

lemma main_body_upload_attempted (env : Env) (c : Config) (he : env.trainExit = 0) :
    (main_body env c).upload_attempted = (c.upload.getD {}).enable.getD true := by
  simp [main_body, he, updated_config_upload]

lemma main_body_upload_repo_id (env : Env) (c : Config) (he : env.trainExit = 0) :
    (main_body env c).upload_repo_id =
      if (c.upload.getD {}).enable.getD true then some (resolve_upload_repo_id c) else none := by
  simp [main_body, he, updated_config_upload, resolve_updated_config]

lemma main_body_delete_step (env : Env) (c : Config) (he : env.trainExit = 0) :
    (main_body env c).delete_step = (c.auto_delete.getD {}).enable.getD false := by
  simp [main_body, he, updated_config_auto_delete]

/-! ### Claims -/

/-- C1: when the training subprocess returns a non-zero exit code, the
launcher exits with exactly that code and performs neither the Hub upload
nor the instance deletion; conversely, reaching either post-training step
implies the training exit code was zero. -/
theorem c1_nonzero_exit_short_circuits (env : Env) (c : Config)
    (h : policy_type_truthy c = true) :
    (env.trainExit ≠ 0 →
      (main env c).exit_code = env.trainExit ∧
      (main env c).upload_attempted = false ∧ (main env c).upload_repo_id = none ∧
      (main env c).delete_step = false ∧ (main env c).delete_attempted = false) ∧
    (((main env c).upload_attempted = true ∨ (main env c).delete_attempted = true) →
      env.trainExit = 0) := by
  rw [main_run env c h]
  constructor
  · intro he
    obtain ⟨h1, h2, h3, h4⟩ := main_body_nonzero_flags env c he
    exact ⟨main_body_exit_code env c, h1, h2, h3, h4⟩
  · intro hreach
    by_contra he
    obtain ⟨h1, _, _, h4⟩ := main_body_nonzero_flags env c he
    rcases hreach with hr | hr
    · rw [h1] at hr; cases hr
    · rw [h4] at hr; cases hr

/-- A failing-training environment: the training subprocess exits with 7. -/
def env_fail : Env :=
  { torch := { torch_available := false, cuda_available := false, bf16_supported := false },
    fs := [], timestamp := "20240101_000000", trainExit := 7, uploadResult := false,
    brevEnvId := none, brevToken := none, inputEnvId := "", inputToken := "" }

/-- A successful-training environment: the training subprocess exits with 0,
and the subsequent Hub upload fails. -/
def env_ok : Env :=
  { torch := { torch_available := false, cuda_available := false, bf16_supported := false },
    fs := [], timestamp := "20240101_000000", trainExit := 0, uploadResult := false,
    brevEnvId := none, brevToken := none, inputEnvId := "", inputToken := "" }

/-- A minimal configuration with `policy.type = "act"`. -/
def config_act : Config :=
  { policy := some { type := some "act" } }

/-- C1 witness: with training exit code 7, the launcher exits 7 and neither
uploads nor deletes. -/
theorem c1_witness :
    (main env_fail config_act).exit_code = 7 ∧
    (main env_fail config_act).upload_attempted = false ∧
    (main env_fail config_act).delete_attempted = false := by
  obtain ⟨hall, hconv⟩ := c1_nonzero_exit_short_circuits env_fail config_act (by decide)
  obtain ⟨h1, h2, _, _, h5⟩ := hall (by decide)
  exact ⟨h1, h2, h5⟩

/-- C2: a configuration without `policy.type` makes the launcher exit with
code 1, spawning no install command and no training subprocess. -/
theorem c2_missing_policy_type_exits_one (env : Env) (c : Config)
    (h : policy_type_val c = none) :
    (main env c).exit_code = 1 ∧ (main env c).install_cmds = [] ∧
    (main env c).train_cmd = none := by
  have ht : policy_type_truthy c = false := by
    unfold policy_type_truthy
    rw [h]
  simp [main, ht, early_exit]

/-- C2 witness: the empty configuration exits 1 with no subprocesses. -/
theorem c2_witness :
    (main env_ok {}).exit_code = 1 ∧ (main env_ok {}).install_cmds = [] ∧
    (main env_ok {}).train_cmd = none :=
  c2_missing_policy_type_exits_one env_ok {} rfl

/-- C8: for `policy.type = "act"` the extras installer spawns no install
subprocess. -/
theorem c8_act_installs_nothing (env : Env) (c : Config)
    (h : policy_type_val c = some "act") :
    (main env c).install_cmds = [] := by
  have ht : policy_type_truthy c = true := by
    unfold policy_type_truthy
    rw [h]
    rfl
  have hs : policy_type_str c = "act" := by
    unfold policy_type_str
    rw [h]
    rfl
  rw [main_run env c ht, main_body_install_cmds, hs]
  rfl

/-- C8 witness: the `act` configuration spawns no install command. -/
theorem c8_witness : (main env_ok config_act).install_cmds = [] :=
  c8_act_installs_nothing env_ok config_act rfl

/-- C9: a zero training exit code gives final exit code 0, for every upload
outcome (in particular a failing upload, which is only logged). -/
theorem c9_upload_failure_keeps_exit_zero (env : Env) (c : Config)
    (h : policy_type_truthy c = true) (he : env.trainExit = 0) :
    (main env c).exit_code = 0 := by
  rw [main_run env c h, main_body_exit_code, he]

/-- C9 witness: training succeeded, the upload fails (`env_ok.uploadResult =
false`), and the launcher still exits 0. -/
theorem c9_witness :
    env_ok.uploadResult = false ∧ (main env_ok config_act).exit_code = 0 :=
  ⟨rfl, c9_upload_failure_keeps_exit_zero env_ok config_act (by decide) rfl⟩

/-- C10: with the `upload` and `auto_delete` sections absent (or their
`enable` keys absent), upload is attempted by default while instance
deletion is skipped by default. -/
theorem c10_opposite_defaults (env : Env) (c : Config)
    (h : policy_type_truthy c = true) (he : env.trainExit = 0)
    (hu : (c.upload.getD {}).enable = none)
    (ha : (c.auto_delete.getD {}).enable = none) :
    (main env c).upload_attempted = true ∧ (main env c).delete_step = false := by
  rw [main_run env c h]
  constructor
  · rw [main_body_upload_attempted env c he, hu]
    rfl
  · rw [main_body_delete_step env c he, ha]
    rfl

/-- C10 witness: `config_act` has neither section; upload is attempted and
deletion is not. -/
theorem c10_witness :
    (main env_ok config_act).upload_attempted = true ∧
    (main env_ok config_act).delete_step = false :=
  c10_opposite_defaults env_ok config_act (by decide) rfl rfl rfl

/-- C5: the builder's defaults for absent keys: `--steps 3000`,
`--batch_size 8`, `--policy.device cuda`, and `--wandb.enable=true`. -/
theorem c5_builder_defaults (tenv : TorchEnv) (c : Config)
    (h1 : c.steps = none) (h2 : c.batch_size = none) (h3 : c.device = none)
    (h4 : (c.wandb.getD {}).enable = none) :
    List.IsInfix ["--steps", "3000"] (build_train_command tenv c) ∧
    List.IsInfix ["--batch_size", "8"] (build_train_command tenv c) ∧
    List.IsInfix ["--policy.device", "cuda"] (build_train_command tenv c) ∧
    "--wandb.enable=true" ∈ build_train_command tenv c := by
  have hsteps : steps_args c = ["--steps", "3000"] := by
    unfold steps_args
    rw [h1]
    decide
  have hbatch : batch_size_args c = ["--batch_size", "8"] := by
    unfold batch_size_args
    rw [h2]
    decide
  have hdev : device_args c = ["--policy.device", "cuda"] := by
    unfold device_args
    rw [h3]
    decide
  have hw : wandb_args c = ["--wandb.enable=true"] := by
    unfold wandb_args
    rw [h4]
    decide
  refine ⟨⟨cmd_head ++ dataset_args c ++ policy_type_args c ++ output_dir_args c ++
      job_name_args c,
      batch_size_args c ++ dtype_args tenv c ++ device_args c ++ wandb_args c ++
      policy_extra_args c ++ resume_args c, ?_⟩,
    ⟨cmd_head ++ dataset_args c ++ policy_type_args c ++ output_dir_args c ++
      job_name_args c ++ steps_args c,
      dtype_args tenv c ++ device_args c ++ wandb_args c ++ policy_extra_args c ++
      resume_args c, ?_⟩,
    ⟨cmd_head ++ dataset_args c ++ policy_type_args c ++ output_dir_args c ++
      job_name_args c ++ steps_args c ++ batch_size_args c ++ dtype_args tenv c,
      wandb_args c ++ policy_extra_args c ++ resume_args c, ?_⟩, ?_⟩
  · rw [← hsteps]
    simp [build_train_command, List.append_assoc]
  · rw [← hbatch]
    simp [build_train_command, List.append_assoc]
  · rw [← hdev]
    simp [build_train_command, List.append_assoc]
  · simp [build_train_command, hw]

/-- C5 witness: on the minimal `act` config all four defaults appear. -/
theorem c5_witness :
    List.IsInfix ["--steps", "3000"]
      (build_train_command env_ok.torch config_act) ∧
    List.IsInfix ["--batch_size", "8"]
      (build_train_command env_ok.torch config_act) ∧
    List.IsInfix ["--policy.device", "cuda"]
      (build_train_command env_ok.torch config_act) ∧
    "--wandb.enable=true" ∈ build_train_command env_ok.torch config_act :=
  c5_builder_defaults env_ok.torch config_act rfl rfl rfl rfl

/-- C6: `dtype = "auto"` (or absent) with no accelerator (torch missing or
CUDA unavailable) and a non-groot policy yields `--policy.dtype float16`. -/
theorem c6_no_accelerator_float16 (tenv : TorchEnv) (c : Config)
    (hng : policy_type_str c ≠ "groot")
    (hdt : c.dtype = none ∨ c.dtype = some "auto")
    (hacc : tenv.torch_available = false ∨ tenv.cuda_available = false) :
    List.IsInfix ["--policy.dtype", "float16"] (build_train_command tenv c) := by
  have hget : get_dtype tenv = "float16" := by
    rcases hacc with h | h <;> simp [get_dtype, h]
  have hargs : dtype_args tenv c = ["--policy.dtype", "float16"] := by
    unfold dtype_args
    rw [if_neg (by simpa using hng)]
    rcases hdt with h | h <;> rw [h] <;> simp [hget]
  refine ⟨cmd_head ++ dataset_args c ++ policy_type_args c ++ output_dir_args c ++
      job_name_args c ++ steps_args c ++ batch_size_args c,
      device_args c ++ wandb_args c ++ policy_extra_args c ++ resume_args c, ?_⟩
  rw [← hargs]
  simp [build_train_command, List.append_assoc]

/-- C6 witness: `act` config, no torch: the command carries
`--policy.dtype float16`. -/
theorem c6_witness :
    List.IsInfix ["--policy.dtype", "float16"]
      (build_train_command env_ok.torch config_act) :=
  c6_no_accelerator_float16 env_ok.torch config_act (by decide) (Or.inl rfl)
    (Or.inl rfl)

/-! ### C7: groot omits the dtype flag.

The flag string could also appear in the command as the *value* of another
key (e.g. `job_name: "--policy.dtype"`), where it would be an argument value
and not a flag; the hypotheses below exclude those value collisions. -/

lemma groot_type_eq (c : Config) (h : policy_type_str c = "groot") :
    (c.policy.getD {}).type = some "groot" := by
  unfold policy_type_str policy_type_val at h
  rcases ht : (c.policy.getD {}).type with _ | t
  · rw [ht] at h
    exact absurd h (by decide)
  · rw [ht] at h
    simp only [Option.getD_some] at h
    rw [h]

lemma digitChar_lt_ne_dash : ∀ m < 10, Nat.digitChar m ≠ '-' := by
  decide

lemma asString_data (l : List Char) : (l.asString).data = l := rfl

lemma dash_not_mem_repr (n : Nat) : '-' ∉ (Nat.repr n).data := by
  rcases Nat.eq_zero_or_pos n with h | h
  · subst h
    decide
  · rw [repr_eq_digits n h, asString_data]
    intro hm
    simp only [List.mem_reverse, List.mem_map] at hm
    obtain ⟨m, hmem, hdc⟩ := hm
    exact digitChar_lt_ne_dash m (Nat.digits_lt_base (by norm_num) hmem) hdc

/-- `str(n)` is all digits, so it is never the dtype flag string. -/
lemma repr_ne_dtype_flag (n : Nat) : Nat.repr n ≠ "--policy.dtype" := by
  intro h
  have hd := dash_not_mem_repr n
  rw [h] at hd
  exact hd (by decide)

lemma c7seg_dataset (c : Config) (h : (c.dataset.getD {}).repo_id ≠ some "--policy.dtype") :
    "--policy.dtype" ∉ dataset_args c := by
  unfold dataset_args
  rcases hd : (c.dataset.getD {}).repo_id with _ | r
  · simp
  · intro hm
    simp only [List.mem_cons, List.not_mem_nil, or_false] at hm
    rcases hm with he | he
    · exact absurd he (by decide)
    · exact h (by rw [hd, ← he])

lemma c7seg_output_dir (c : Config) (h : c.output_dir ≠ some "--policy.dtype") :
    "--policy.dtype" ∉ output_dir_args c := by
  unfold output_dir_args
  rcases hd : c.output_dir with _ | d
  · simp
  · intro hm
    simp only [List.mem_cons, List.not_mem_nil, or_false] at hm
    rcases hm with he | he
    · exact absurd he (by decide)
    · exact h (by rw [hd, ← he])

lemma c7seg_job_name (c : Config) (h : c.job_name ≠ some "--policy.dtype") :
    "--policy.dtype" ∉ job_name_args c := by
  unfold job_name_args
  rcases hd : c.job_name with _ | j
  · simp
  · intro hm
    simp only [List.mem_cons, List.not_mem_nil, or_false] at hm
    rcases hm with he | he
    · exact absurd he (by decide)
    · exact h (by rw [hd, ← he])

lemma c7seg_steps (c : Config) : "--policy.dtype" ∉ steps_args c := by
  unfold steps_args
  intro hm
  simp only [List.mem_cons, List.not_mem_nil, or_false] at hm
  rcases hm with he | he
  · exact absurd he (by decide)
  · exact repr_ne_dtype_flag _ he.symm

lemma c7seg_batch (c : Config) : "--policy.dtype" ∉ batch_size_args c := by
  unfold batch_size_args
  intro hm
  simp only [List.mem_cons, List.not_mem_nil, or_false] at hm
  rcases hm with he | he
  · exact absurd he (by decide)
  · exact repr_ne_dtype_flag _ he.symm

lemma c7seg_device (c : Config) (h : c.device ≠ some "--policy.dtype") :
    "--policy.dtype" ∉ device_args c := by
  rcases hd : c.device with _ | v
  · unfold device_args
    rw [hd]
    decide
  · have hv : v ≠ "--policy.dtype" := fun he => h (by rw [hd, he])
    unfold device_args
    rw [hd]
    simp only [Option.getD_some]
    by_cases hve : v = ""
    · simp [hve]
    · rw [if_neg hve]
      intro hm
      simp only [List.mem_cons, List.not_mem_nil, or_false] at hm
      rcases hm with he | he
      · exact absurd he (by decide)
      · exact hv he.symm

lemma c7seg_policy_extra (c : Config)
    (h1 : (c.policy.getD {}).repo_id ≠ some "--policy.dtype")
    (h2 : (c.policy.getD {}).pretrained_path ≠ some "--policy.dtype") :
    "--policy.dtype" ∉ policy_extra_args c := by
  unfold policy_extra_args
  rcases hp : c.policy with _ | p
  · simp
  · rw [hp] at h1 h2
    simp only [Option.getD_some] at h1 h2
    intro hm
    simp only [List.mem_append] at hm
    rcases hm with (((hm | hm) | hm) | hm) | hm
    · unfold policy_repo_id_args at hm
      rcases hr : p.repo_id with _ | r
      · rw [hr] at hm; cases hm
      · rw [hr] at hm
        simp only [List.mem_cons, List.not_mem_nil, or_false] at hm
        rcases hm with he | he
        · exact absurd he (by decide)
        · exact h1 (by rw [hr, ← he])
    · revert hm
      unfold push_to_hub_args
      split <;> decide
    · unfold pretrained_path_args at hm
      rcases hr : p.pretrained_path with _ | pp
      · rw [hr] at hm; cases hm
      · rw [hr] at hm
        simp only [List.mem_cons, List.not_mem_nil, or_false] at hm
        rcases hm with he | he
        · exact absurd he (by decide)
        · exact h2 (by rw [hr, ← he])
    · revert hm
      unfold compile_model_args
      split <;> decide
    · revert hm
      unfold gradient_checkpointing_args
      split <;> decide

/-- C7: for `policy.type = "groot"` the built command contains no
`--policy.dtype` flag, whatever the `dtype` field holds; the extra
hypotheses only rule out other config values colliding with the literal
flag string (where it would be a value, not a flag). -/
theorem c7_groot_no_dtype_flag (tenv : TorchEnv) (c : Config)
    (hg : policy_type_str c = "groot")
    (hds : (c.dataset.getD {}).repo_id ≠ some "--policy.dtype")
    (hod : c.output_dir ≠ some "--policy.dtype")
    (hjn : c.job_name ≠ some "--policy.dtype")
    (hdev : c.device ≠ some "--policy.dtype")
    (hpr : (c.policy.getD {}).repo_id ≠ some "--policy.dtype")
    (hpp : (c.policy.getD {}).pretrained_path ≠ some "--policy.dtype") :
    "--policy.dtype" ∉ build_train_command tenv c := by
  have hpt : policy_type_args c = ["--policy.type", "groot"] := by
    unfold policy_type_args
    rw [groot_type_eq c hg]
  have hdt : dtype_args tenv c = [] := by
    unfold dtype_args
    rw [if_pos (by simp [hg])]
  unfold build_train_command
  simp only [List.mem_append, not_or]
  refine ⟨⟨⟨⟨⟨⟨⟨⟨⟨⟨⟨?_, ?_⟩, ?_⟩, ?_⟩, ?_⟩, ?_⟩, ?_⟩, ?_⟩, ?_⟩, ?_⟩, ?_⟩, ?_⟩
  · decide
  · exact c7seg_dataset c hds
  · rw [hpt]
    decide
  · exact c7seg_output_dir c hod
  · exact c7seg_job_name c hjn
  · exact c7seg_steps c
  · exact c7seg_batch c
  · rw [hdt]
    simp
  · exact c7seg_device c hdev
  · unfold wandb_args
    split <;> decide
  · exact c7seg_policy_extra c hpr hpp
  · unfold resume_args
    split <;> decide

/-- A minimal configuration with `policy.type = "groot"` and `dtype` set. -/
def config_groot : Config :=
  { policy := some { type := some "groot" }, dtype := some "bfloat16" }

/-- C7 witness: the groot command (even with an explicit `dtype`) has no
`--policy.dtype`. -/
theorem c7_witness :
    "--policy.dtype" ∉ build_train_command env_ok.torch config_groot :=
  c7_groot_no_dtype_flag env_ok.torch config_groot (by decide) (by decide)
    (by decide) (by decide) (by decide) (by decide) (by decide)

/-! ### C4: upload repo-id precedence -/

/-- A configuration whose `upload.repo_id` key is present but holds the empty
string, with a usable `policy.repo_id` behind it. -/
def c4_config : Config :=
  { policy := some { type := some "act", repo_id := some "user/model" },
    upload := some { repo_id := some "" },
    job_name := some "My_Job" }

/-- C4 counterexample: the claim's first precedence case is "the explicit
`upload.repo_id` if present".  Here it is present (`""`), so the claim
predicts the resolved id `""`; but line 326 tests Python truthiness
(`if not repo_id`), so the empty value falls through to `policy.repo_id`
and the code resolves `"user/model"`. -/
theorem c4_counterexample :
    (c4_config.upload.getD {}).repo_id = some "" ∧
    resolve_upload_repo_id c4_config = "user/model" ∧ "user/model" ≠ "" := by
  refine ⟨rfl, by decide, by decide⟩

/-- C4 (amended): when upload is enabled the target repository id used by
`main` is `resolve_upload_repo_id`, which applies the precedence: the
explicit `upload.repo_id` when present and non-empty; otherwise
`policy.repo_id` when present, non-empty and not starting with `"local/"`;
otherwise the `job_name` (default `"untitled"`) with underscores replaced by
hyphens, lowercased. -/
theorem c4_repo_id_precedence (env : Env) (c : Config)
    (h : policy_type_truthy c = true) (he : env.trainExit = 0)
    (hen : (c.upload.getD {}).enable.getD true = true) :
    (main env c).upload_repo_id = some (resolve_upload_repo_id c) ∧
    (∀ r, (c.upload.getD {}).repo_id = some r → r ≠ "" →
      resolve_upload_repo_id c = r) ∧
    (∀ pr, ((c.upload.getD {}).repo_id = none ∨ (c.upload.getD {}).repo_id = some "") →
      (c.policy.getD {}).repo_id = some pr → pr ≠ "" →
      pyStartsWith pr "local/" = false → resolve_upload_repo_id c = pr) ∧
    (((c.upload.getD {}).repo_id = none ∨ (c.upload.getD {}).repo_id = some "") →
      ((c.policy.getD {}).repo_id = none ∨ (c.policy.getD {}).repo_id = some "" ∨
        pyStartsWith (((c.policy.getD {}).repo_id).getD "") "local/" = true) →
      resolve_upload_repo_id c = sanitized_job_name c) := by
  refine ⟨?_, ?_, ?_, ?_⟩
  · rw [main_run env c h, main_body_upload_repo_id env c he, if_pos hen]
  · intro r hr hne
    unfold resolve_upload_repo_id
    simp only [hr]
    rw [if_neg hne]
  · intro pr hu hp hne hsw
    unfold resolve_upload_repo_id
    rcases hu with hu | hu <;> simp only [hu]
    · unfold resolve_fallback_repo_id
      simp only [hp]
      rw [if_pos ⟨hne, hsw⟩]
    · simp only [if_true]
      unfold resolve_fallback_repo_id
      simp only [hp]
      rw [if_pos ⟨hne, hsw⟩]
  · intro hu hpol
    have hfb : resolve_fallback_repo_id c = sanitized_job_name c := by
      unfold resolve_fallback_repo_id
      rcases hpol with hp | hp | hp
      · simp only [hp]
      · simp only [hp]
        rw [if_neg]
        intro hcond
        exact hcond.1 rfl
      · rcases hr : (c.policy.getD {}).repo_id with _ | pr
        · simp only [hr]
        · rw [hr] at hp
          simp only [Option.getD_some] at hp
          simp only [hr]
          rw [if_neg]
          intro hcond
          rw [hp] at hcond
          exact absurd hcond.2 (by decide)
    unfold resolve_upload_repo_id
    rcases hu with hu | hu <;> simp only [hu]
    · exact hfb
    · simp only [if_true]
      exact hfb

/-- A configuration with a truthy explicit `upload.repo_id`. -/
def c4_wit_config : Config :=
  { policy := some { type := some "act" },
    upload := some { repo_id := some "me/model" } }

/-- C4 witness: the explicit non-empty `upload.repo_id` wins and is the id
`main` uploads to. -/
theorem c4_witness :
    (main env_ok c4_wit_config).upload_repo_id = some "me/model" := by
  obtain ⟨hmain, hfirst, _, _⟩ :=
    c4_repo_id_precedence env_ok c4_wit_config (by decide) rfl (by decide)
  rw [hmain, hfirst "me/model" rfl (by decide)]

/-! ### C3: collision-free output directory -/

/-- C3: if the configured `output_dir` exists and `resume` is falsy, the
launcher switches to a fresh path — a timestamp-and-counter-suffixed
subdirectory of the original that does not yet exist — and the built
training command carries the new path; with `resume` truthy the output
path is unchanged. -/
theorem c3_output_dir_uniquified (env : Env) (c : Config)
    (h : policy_type_truthy c = true) :
    (∀ d, c.output_dir = some d → d ∈ env.fs → c.resume.getD false = false →
      ∃ newd,
        newd ∉ env.fs ∧
        (∃ n, newd = candidate d (c.job_name.getD "untitled") env.timestamp n) ∧
        (main env c).final_output_dir = newd ∧
        ∃ cmd, (main env c).train_cmd = some cmd ∧
          List.IsInfix ["--output_dir", newd] cmd) ∧
    (c.resume.getD false = true →
      (main env c).final_output_dir = c.output_dir.getD "/workspace/outputs") := by
  constructor
  · intro d hd hmem hres
    obtain ⟨hfresh, n, hcand⟩ :=
      unique_output_dir_spec env.fs d (c.job_name.getD "untitled") env.timestamp
    have hcond : c.output_dir.getD "/workspace/outputs" ∈ env.fs ∧
        c.resume.getD false = false := by
      rw [hd]
      exact ⟨hmem, hres⟩
    have heff : effective_output_dir env.fs env.timestamp c =
        unique_output_dir env.fs d (c.job_name.getD "untitled") env.timestamp := by
      unfold effective_output_dir
      rw [if_pos hcond, hd]
      rfl
    have hupd : (updated_config env.fs env.timestamp c).output_dir =
        some (unique_output_dir env.fs d (c.job_name.getD "untitled") env.timestamp) := by
      unfold updated_config
      rw [if_pos hcond]
      simp [hd]
    refine ⟨unique_output_dir env.fs d (c.job_name.getD "untitled") env.timestamp,
      hfresh, ⟨n, hcand⟩, ?_, ?_⟩
    · rw [main_run env c h, main_body_final_output_dir]
      exact heff
    · rw [main_run env c h, main_body_train_cmd]
      refine ⟨build_train_command env.torch (updated_config env.fs env.timestamp c),
        rfl, ?_⟩
      have hoda : output_dir_args (updated_config env.fs env.timestamp c) =
          ["--output_dir",
            unique_output_dir env.fs d (c.job_name.getD "untitled") env.timestamp] := by
        unfold output_dir_args
        rw [hupd]
      refine ⟨cmd_head ++ dataset_args (updated_config env.fs env.timestamp c) ++
        policy_type_args (updated_config env.fs env.timestamp c),
        job_name_args (updated_config env.fs env.timestamp c) ++
        steps_args (updated_config env.fs env.timestamp c) ++
        batch_size_args (updated_config env.fs env.timestamp c) ++
        dtype_args env.torch (updated_config env.fs env.timestamp c) ++
        device_args (updated_config env.fs env.timestamp c) ++
        wandb_args (updated_config env.fs env.timestamp c) ++
        policy_extra_args (updated_config env.fs env.timestamp c) ++
        resume_args (updated_config env.fs env.timestamp c), ?_⟩
      rw [← hoda]
      simp [build_train_command, List.append_assoc]
  · intro hres
    rw [main_run env c h, main_body_final_output_dir]
    have hnc : ¬(c.output_dir.getD "/workspace/outputs" ∈ env.fs ∧
        c.resume.getD false = false) := by
      intro hcond
      rw [hres] at hcond
      exact absurd hcond.2 (by decide)
    unfold effective_output_dir
    rw [if_neg hnc]

/-- An environment whose filesystem already contains `/workspace/out`. -/
def env_c3 : Env :=
  { torch := { torch_available := false, cuda_available := false, bf16_supported := false },
    fs := ["/workspace/out"], timestamp := "20240101_000000", trainExit := 0,
    uploadResult := false, brevEnvId := none, brevToken := none,
    inputEnvId := "", inputToken := "" }

/-- A configuration whose `output_dir` collides with `env_c3`'s filesystem. -/
def config_c3 : Config :=
  { policy := some { type := some "act" }, output_dir := some "/workspace/out",
    job_name := some "job" }

/-- C3 witness: on the colliding config the launcher picks a fresh suffixed
subdirectory and the training command carries it. -/
theorem c3_witness :
    ∃ newd, newd ∉ env_c3.fs ∧
      (∃ n, newd = candidate "/workspace/out" "job" "20240101_000000" n) ∧
      (main env_c3 config_c3).final_output_dir = newd ∧
      ∃ cmd, (main env_c3 config_c3).train_cmd = some cmd ∧
        List.IsInfix ["--output_dir", newd] cmd :=
  (c3_output_dir_uniquified env_c3 config_c3 (by decide)).1 "/workspace/out" rfl
    (by decide) rfl

end RunTrain
